import Mathlib

/-!
Verification of the `Database` class of this repository
(`src/database/database.py`, which supersedes the near-duplicate
`src/database.py`).

The class is a string-building wrapper over a SQLite connection.  We embed
the pure query-construction logic directly and model the two external
effects explicitly:

* the engine: a function `String → ExecResult` giving the outcome of
  `cursor.execute` on a statement (ok, IntegrityError, OperationalError,
  or any other exception);
* introspection results (`PRAGMA table_info`, the `sqlite_master` table
  listing) are passed in as the lists of names the cursor would return.

Each operation returns an `OpResult` recording the Python-level outcome
(returned normally, raised an uncaught exception, or terminated the
process via `quit()`), the statements passed to `cursor.execute`, the
number of `connection.commit()` calls, the diagnostic messages printed,
and the number of interactive prompts issued.
-/

namespace DB

/-- The single-quote character (code point 39). -/
def sqChar : Char := Char.ofNat 39

/-- The single-quote as a one-character string. -/
def sqStr : String := String.singleton sqChar

/-- Scalar values handled by the wrapper: Python `str`, `int`, and `None`.
These are the runtime types the serialization rule distinguishes. -/
inductive Value where
  | vStr : String → Value
  | vInt : Int → Value
  | vNone : Value
deriving DecidableEq, Repr

/-- Python `str()` on the modeled scalar types. -/
def pyStr : Value → String
  | Value.vStr s => s
  | Value.vInt n => toString n
  | Value.vNone => "None"

/-- `text.replace(chr(39), chr(39)*2)` from `Database.stringify`, on the
character list: every single-quote character is doubled, all other
characters pass through. -/
def escapeChars : List Char → List Char
  | [] => []
  | c :: cs => if c = sqChar then sqChar :: sqChar :: escapeChars cs else c :: escapeChars cs

/-- `Database.stringify(text, preserve_int)`.  A non-string value is
converted with `str()` in both branches of the `preserve_int` test
(`str()` cannot fail on the modeled scalar types, so the `except` branch
that would log and return `None` is unreachable).  A string value has its
single quotes doubled and is wrapped in single quotes. -/
def stringify (text : Value) (preserve_int : Bool) : String :=
  match text with
  | Value.vStr s => sqStr ++ String.mk (escapeChars s.data) ++ sqStr
  | other => if preserve_int then pyStr other else pyStr other

/-- Spec-side inverse used to state the round trip: un-double the interior
quotes (each doubled single quote becomes one). -/
def unescapeChars : List Char → List Char
  | [] => []
  | [c] => [c]
  | c1 :: c2 :: cs =>
    if c1 = sqChar ∧ c2 = sqChar then sqChar :: unescapeChars cs
    else c1 :: unescapeChars (c2 :: cs)

/-- Spec-side: strip the first and last character (the outer quotes). -/
def stripOuter (l : List Char) : List Char := (l.drop 1).dropLast

theorem escapeChars_cons_ne_nil (c : Char) (cs : List Char) :
    escapeChars (c :: cs) ≠ [] := by
  simp only [escapeChars]
  split <;> simp

theorem unescape_escape (l : List Char) : unescapeChars (escapeChars l) = l := by
  induction l with
  | nil => rfl
  | cons c cs ih =>
    by_cases hc : c = sqChar
    · subst hc
      simp [escapeChars, unescapeChars, ih]
    · simp only [escapeChars, if_neg hc]
      cases hcs : escapeChars cs with
      | nil =>
        cases cs with
        | nil => simp [unescapeChars]
        | cons d ds => exact absurd hcs (escapeChars_cons_ne_nil d ds)
      | cons d ds =>
        rw [unescapeChars, if_neg (by simp [hc]), ← hcs, ih]

theorem escapeChars_count (l : List Char) :
    (escapeChars l).count sqChar = 2 * l.count sqChar := by
  induction l with
  | nil => rfl
  | cons c cs ih =>
    by_cases hc : c = sqChar
    · subst hc
      simp [escapeChars, ih]
      ring
    · simp only [escapeChars, if_neg hc]
      rw [List.count_cons_of_ne (Ne.symm hc), List.count_cons_of_ne (Ne.symm hc), ih]

/-- C1: for every string `s`, `stringify` yields a literal that starts and
ends with a single quote, whose interior is `s` with every single-quote
character doubled (so the literal contains twice the quote count of `s`,
plus the two delimiters); stripping the outer quotes and un-doubling the
interior quotes reproduces `s` exactly. -/
theorem stringify_string_roundtrip (s : String) (b : Bool) :
    (stringify (Value.vStr s) b).data.head? = some sqChar
  ∧ (stringify (Value.vStr s) b).data.getLast? = some sqChar
  ∧ (stringify (Value.vStr s) b).data = sqChar :: (escapeChars s.data ++ [sqChar])
  ∧ (stringify (Value.vStr s) b).data.count sqChar = 2 * s.data.count sqChar + 2
  ∧ unescapeChars (stripOuter (stringify (Value.vStr s) b).data) = s.data := by
  have hdata : (stringify (Value.vStr s) b).data
      = sqChar :: (escapeChars s.data ++ [sqChar]) := by
    show ([sqChar] ++ escapeChars s.data) ++ [sqChar]
      = sqChar :: (escapeChars s.data ++ [sqChar])
    simp
  refine ⟨by rw [hdata]; rfl, ?_, hdata, ?_, ?_⟩
  · rw [hdata, ← List.cons_append, List.getLast?_concat]
  · rw [hdata, List.count_cons_self, List.count_append, escapeChars_count,
      List.count_singleton, if_pos (beq_self_eq_true sqChar)]
  · rw [hdata]
    show unescapeChars ((escapeChars s.data ++ [sqChar]).dropLast) = s.data
    rw [List.dropLast_concat, unescape_escape]

/-- Outcome of `cursor.execute` on a statement, as seen by the wrapper:
success, `sqlite3.IntegrityError`, `sqlite3.OperationalError`, or any
other exception (all carrying a message). -/
inductive ExecResult where
  | ok
  | integrityError (msg : String)
  | operationalError (msg : String)
  | otherError (msg : String)
deriving DecidableEq, Repr

/-- Uncaught Python-level exceptions the wrapper itself can let escape. -/
inductive PyError where
  | typeError
  | keyError
  | engineError
deriving DecidableEq, Repr

/-- How a method call ends: a normal return, an uncaught exception
propagating to the caller, or process termination via `quit()`. -/
inductive Outcome where
  | returned
  | raised (e : PyError)
  | exited
deriving DecidableEq, Repr

/-- Observable effects of one method call: the outcome, the statements
passed to `cursor.execute` (in order, including ones whose execution then
failed), the number of `connection.commit()` calls, the diagnostic
messages printed, and the number of interactive confirmation prompts. -/
structure OpResult where
  outcome : Outcome
  executed : List String
  commits : Nat
  logs : List String
  prompts : Nat
deriving DecidableEq, Repr

/-- The statement text built by `Database.insert_row` (the f-string with
its exact whitespace): column names joined with commas, values serialized
by `stringify` with `preserve_int=True`. -/
def insertRowSql (table : String) (row : List (String × Value)) : String :=
  "\n        insert into " ++ table ++ " ("
    ++ String.intercalate "," (row.map Prod.fst)
    ++ ")\n        values ( "
    ++ String.intercalate "," (row.map (fun kv => stringify kv.snd true))
    ++ " );\n        "

/-- `Database.insert_row(table, row)`: build the statement, execute and
commit inside `try`; `IntegrityError` is passed over silently,
`OperationalError` is printed and the process exits via `quit()`, any
other exception is printed and the call returns. -/
def insert_row (engine : String → ExecResult) (table : String)
    (row : List (String × Value)) : OpResult :=
  let sql := insertRowSql table row
  match engine sql with
  | ExecResult.ok =>
    { outcome := Outcome.returned, executed := [sql], commits := 1, logs := [], prompts := 0 }
  | ExecResult.integrityError _ =>
    { outcome := Outcome.returned, executed := [sql], commits := 0, logs := [], prompts := 0 }
  | ExecResult.operationalError e =>
    { outcome := Outcome.exited, executed := [sql], commits := 0,
      logs := ["[Operational Error] " ++ e], prompts := 0 }
  | ExecResult.otherError e =>
    { outcome := Outcome.returned, executed := [sql], commits := 0,
      logs := ["ERROR: " ++ e], prompts := 0 }

/-- C2: the three-way error split of `insert_row`.  When execution raises
a uniqueness/primary-key conflict (`IntegrityError`) the call returns
normally with nothing logged and nothing committed; when it raises
`OperationalError` (malformed statement / missing object) the process
terminates; when it raises any other error the call logs it and returns
normally without raising. -/
theorem insert_row_error_split (table : String) (row : List (String × Value))
    (msg : String) :
    insert_row (fun _ => ExecResult.integrityError msg) table row =
      { outcome := Outcome.returned, executed := [insertRowSql table row],
        commits := 0, logs := [], prompts := 0 }
  ∧ (insert_row (fun _ => ExecResult.operationalError msg) table row).outcome =
      Outcome.exited
  ∧ insert_row (fun _ => ExecResult.otherError msg) table row =
      { outcome := Outcome.returned, executed := [insertRowSql table row],
        commits := 0, logs := ["ERROR: " ++ msg], prompts := 0 } :=
  ⟨rfl, rfl, rfl⟩

/-- Python dict indexing `row[col]` on a row modeled as an association
list: the value at the first (unique) matching key, or `none` when the
key is absent (a `KeyError` in Python). -/
def lookupCol (row : List (String × Value)) (col : String) : Option Value :=
  (row.find? (fun kv => kv.fst == col)).map Prod.snd

/-- A Python list comprehension whose body may raise: map `f` over the
list, failing fast with `none` as soon as one element fails. -/
def traverseOpt {α β : Type} (f : α → Option β) : List α → Option (List β)
  | [] => some []
  | x :: xs =>
    match f x, traverseOpt f xs with
    | some y, some ys => some (y :: ys)
    | _, _ => none

/-- The per-value rendering of `Database.insert_many`: a string value is
wrapped in single quotes with NO escaping of interior quotes
(the f-string is just quote, value, quote); any other value goes through
plain `str()` unquoted. -/
def batchRender (v : Value) : String :=
  match v with
  | Value.vStr s => sqStr ++ s ++ sqStr
  | other => pyStr other

/-- One row of the `VALUES` list in `insert_many`: `row[col]` looked up
for each column of the first row (a missing key is a `KeyError`),
rendered by `batchRender` and joined with commas. -/
def renderRowValues (colNames : List String) (row : List (String × Value)) :
    Option String :=
  (traverseOpt (lookupCol row) colNames).map
    (fun vs => String.intercalate "," (vs.map batchRender))

/-- The full multi-row `INSERT` statement of `Database.insert_many`, or
`none` when some row lacks a column of the first row (`KeyError` during
construction). -/
def buildManySql (table : String) (colNames : List String)
    (rows : List (List (String × Value))) : Option String :=
  (traverseOpt (renderRowValues colNames) rows).map
    (fun rendered =>
      "INSERT INTO " ++ table
        ++ "\n (" ++ String.intercalate "," colNames ++ ")\nVALUES\n"
        ++ String.intercalate ",\n" (rendered.map (fun r => "(" ++ r ++ ")")))

/-- `Database.insert_many(table, rows)`: return immediately on an empty
list; take the column list from the first row; build the statement
(outside `try`, so a `KeyError` propagates with nothing executed); then
execute/commit with the same exception split as `insert_row`. -/
def insert_many (engine : String → ExecResult) (table : String)
    (rows : List (List (String × Value))) : OpResult :=
  match rows with
  | [] =>
    { outcome := Outcome.returned, executed := [], commits := 0, logs := [], prompts := 0 }
  | first :: rest =>
    match buildManySql table (first.map Prod.fst) (first :: rest) with
    | none =>
      { outcome := Outcome.raised PyError.keyError, executed := [], commits := 0,
        logs := [], prompts := 0 }
    | some sql =>
      match engine sql with
      | ExecResult.ok =>
        { outcome := Outcome.returned, executed := [sql], commits := 1, logs := [], prompts := 0 }
      | ExecResult.integrityError _ =>
        { outcome := Outcome.returned, executed := [sql], commits := 0, logs := [], prompts := 0 }
      | ExecResult.operationalError e =>
        { outcome := Outcome.exited, executed := [sql], commits := 0,
          logs := ["[Operational Error] " ++ e], prompts := 0 }
      | ExecResult.otherError e =>
        { outcome := Outcome.returned, executed := [sql], commits := 0,
          logs := ["ERROR: " ++ e], prompts := 0 }

/-- C3: in the batch path every string value is emitted wrapped in single
quotes with interior single quotes left as they are, and every non-string
value is emitted via plain string conversion unquoted; on a string
containing a single quote this differs from the escaping `stringify` used
by the single-insert path, and the generated statement for a one-row
batch carries the unescaped literal verbatim. -/
theorem insert_many_no_escaping (s : String) (n : Int) :
    batchRender (Value.vStr s) = sqStr ++ s ++ sqStr
  ∧ batchRender (Value.vInt n) = toString n
  ∧ batchRender Value.vNone = "None"
  ∧ buildManySql "t" ["c"] [[("c", Value.vStr s)]] =
      some ("INSERT INTO t\n (c)\nVALUES\n(" ++ (sqStr ++ s ++ sqStr) ++ ")")
  ∧ batchRender (Value.vStr sqStr) ≠ stringify (Value.vStr sqStr) true := by
  refine ⟨rfl, rfl, rfl, ?_, by decide⟩
  show Option.map _ (traverseOpt _ [[("c", Value.vStr s)]]) = _
  simp [traverseOpt, renderRowValues, lookupCol, List.find?, batchRender]
  rfl

/-- C8: `insert_many` on an empty row sequence is a no-op: it returns
normally having executed zero statements, committed nothing, logged
nothing and prompted nobody. -/
theorem insert_many_empty_noop (engine : String → ExecResult) (table : String) :
    insert_many engine table [] =
      { outcome := Outcome.returned, executed := [], commits := 0,
        logs := [], prompts := 0 } :=
  rfl

theorem traverseOpt_eq_none {α β : Type} (f : α → Option β) {l : List α} {a : α}
    (ha : a ∈ l) (hfa : f a = none) : traverseOpt f l = none := by
  induction l with
  | nil => cases ha
  | cons x xs ih =>
    rcases List.mem_cons.mp ha with h | h
    · subst h
      simp only [traverseOpt, hfa]
    · simp only [traverseOpt, ih h]
      cases f x <;> rfl

theorem lookupCol_eq_none_of_not_mem {row : List (String × Value)} {c : String}
    (h : c ∉ row.map Prod.fst) : lookupCol row c = none := by
  unfold lookupCol
  rw [List.find?_eq_none.mpr]
  · rfl
  · intro kv hkv hbeq
    exact h (List.mem_map.mpr ⟨kv, hkv, eq_of_beq hbeq⟩)

/-- C10: when `insert_many` is called with a non-empty row sequence in
which some row does not contain a column name taken from the first row,
statement construction hits a `KeyError` outside the `try` block: the
error propagates to the caller and no statement is executed, nothing is
committed. -/
theorem insert_many_missing_key_raises (engine : String → ExecResult)
    (table : String) (first : List (String × Value))
    (rest : List (List (String × Value)))
    (h : ∃ row ∈ first :: rest, ∃ c ∈ first.map Prod.fst,
          c ∉ row.map Prod.fst) :
    insert_many engine table (first :: rest) =
      { outcome := Outcome.raised PyError.keyError, executed := [],
        commits := 0, logs := [], prompts := 0 } := by
  obtain ⟨row, hrow, c, hc, hmiss⟩ := h
  have hrender : renderRowValues (first.map Prod.fst) row = none := by
    unfold renderRowValues
    rw [traverseOpt_eq_none (lookupCol row) hc
      (lookupCol_eq_none_of_not_mem hmiss)]
    rfl
  have hbuild : buildManySql table (first.map Prod.fst) (first :: rest) = none := by
    unfold buildManySql
    rw [traverseOpt_eq_none (renderRowValues (first.map Prod.fst)) hrow hrender]
    rfl
  simp only [insert_many, hbuild]

/-- C10 witness: a concrete batch whose second row lacks the second
column of the first row raises `KeyError` with nothing executed. -/
theorem insert_many_missing_key_raises_witness :
    insert_many (fun _ => ExecResult.ok) "t"
      [[("a", Value.vInt 1), ("b", Value.vInt 2)], [("a", Value.vInt 3)]] =
      { outcome := Outcome.raised PyError.keyError, executed := [],
        commits := 0, logs := [], prompts := 0 } :=
  insert_many_missing_key_raises (fun _ => ExecResult.ok) "t"
    [("a", Value.vInt 1), ("b", Value.vInt 2)] [[("a", Value.vInt 3)]]
    ⟨[("a", Value.vInt 3)], by decide, "b", by decide, by decide⟩

/-- The WHERE-clause body built by `Database.update_cell` from the
`primary_keys` dict: for each entry, `row = stringify(value)` (note: the
default `preserve_int=False`), joined with the lowercase separator
`chr(32) and chr(32)`. -/
def buildCondition (primary_keys : List (String × Value)) : String :=
  String.intercalate " and "
    (primary_keys.map (fun kv => kv.fst ++ " = " ++ stringify kv.snd false))

/-- How Python renders the `condition` variable inside the f-string: a
string passes through, `None` prints as the four characters `None`. -/
def pyStrOpt : Option String → String
  | some w => w
  | none => "None"

/-- The statement text built by `Database.update_cell` (the f-string with
its exact whitespace). -/
def updateSql (table column : String) (new_value : Value) (cond : String) : String :=
  "\n        update " ++ table
    ++ "\n        set " ++ column ++ " = " ++ stringify new_value true
    ++ "\n        where " ++ cond ++ ";\n        "

/-- `Database.update_cell(table, column, new_value, primary_keys, where)`:
raise `TypeError` when both optional arguments are `None`; otherwise pick
the condition by Python truthiness of `primary_keys` (an empty dict is
falsy, so it falls through to `condition = where`; the bare
`TypeError(...)` expression constructed there is never raised); then
execute/commit inside a `try` whose `except Exception` logs every error,
so the call always returns normally after the guard. -/
def update_cell (engine : String → ExecResult) (table column : String)
    (new_value : Value) (primary_keys : Option (List (String × Value)))
    (whereArg : Option String) : OpResult :=
  if primary_keys.isNone && whereArg.isNone then
    { outcome := Outcome.raised PyError.typeError, executed := [], commits := 0,
      logs := [], prompts := 0 }
  else
    let condition : String :=
      match primary_keys with
      | some pks => if pks.isEmpty then pyStrOpt whereArg else buildCondition pks
      | none => pyStrOpt whereArg
    let sql := updateSql table column new_value condition
    match engine sql with
    | ExecResult.ok =>
      { outcome := Outcome.returned, executed := [sql], commits := 1, logs := [], prompts := 0 }
    | ExecResult.integrityError e =>
      { outcome := Outcome.returned, executed := [sql], commits := 0,
        logs := ["ERROR: " ++ e], prompts := 0 }
    | ExecResult.operationalError e =>
      { outcome := Outcome.returned, executed := [sql], commits := 0,
        logs := ["ERROR: " ++ e], prompts := 0 }
    | ExecResult.otherError e =>
      { outcome := Outcome.returned, executed := [sql], commits := 0,
        logs := ["ERROR: " ++ e], prompts := 0 }

/-- C4 counterexample: a non-string condition value is NOT emitted as a
quoted literal.  For the condition map mapping ID to the integer 5, the
WHERE-clause body is `ID = 5`, which differs from the quoted rendering
the claim prescribes. -/
theorem update_cell_condition_counterexample :
    buildCondition [("ID", Value.vInt 5)] = "ID = 5"
  ∧ buildCondition [("ID", Value.vInt 5)] ≠ "ID = " ++ sqStr ++ "5" ++ sqStr := by
  constructor
  · rfl
  · decide

/-- C4 amended: the WHERE-clause body is the entries rendered as
`column = literal` pairs joined with the lowercase separator
`chr(32) and chr(32)`, where each literal is `stringify(value)` with its
default flag: a string value is quoted with interior single quotes
doubled, while a non-string value is emitted via plain string conversion
unquoted. -/
theorem update_cell_condition_amended (pks : List (String × Value))
    (s : String) (n : Int) :
    buildCondition pks =
      String.intercalate " and "
        (pks.map (fun kv => kv.fst ++ " = " ++ stringify kv.snd false))
  ∧ stringify (Value.vStr s) false = sqStr ++ String.mk (escapeChars s.data) ++ sqStr
  ∧ stringify (Value.vInt n) false = toString n
  ∧ stringify Value.vNone false = "None" :=
  ⟨rfl, rfl, rfl, rfl⟩

/-- C5: calling `update_cell` with neither a condition map nor a raw
condition string raises `TypeError` before any database interaction:
no statement is executed, nothing committed, nothing prompted. -/
theorem update_cell_no_condition_raises (engine : String → ExecResult)
    (table column : String) (v : Value) :
    update_cell engine table column v none none =
      { outcome := Outcome.raised PyError.typeError, executed := [],
        commits := 0, logs := [], prompts := 0 } :=
  rfl

/-- C9: an empty condition map with no raw condition is NOT rejected: the
guard only fires when both arguments are `None`, the empty dict is falsy,
so `condition = where = None` and the executed UPDATE statement carries
the literal text `None` as its WHERE body; the call returns normally for
every engine outcome. -/
theorem update_cell_empty_dict_executes (engine : String → ExecResult)
    (table column : String) (v : Value) :
    (update_cell engine table column v (some []) none).outcome = Outcome.returned
  ∧ (update_cell engine table column v (some []) none).executed =
      [updateSql table column v "None"] := by
  cases h : engine (updateSql table column v "None") <;>
    simp [update_cell, pyStrOpt, h]

/-- Python `str.lower()` on the modeled (ASCII) input. -/
def toLowerStr (s : String) : String := String.mk (s.data.map Char.toLower)

/-- The statement text of `Database.delete_all_rows`. -/
def deleteAllRowsSql (table : String) : String := "DELETE FROM " ++ table ++ ";"

/-- The body of `delete_all_rows` after the confirmation guard: execute
the DELETE (not wrapped in `try`, so an engine error propagates), commit,
print. -/
def runDeleteAllRows (engine : String → ExecResult) (table : String)
    (prompts : Nat) : OpResult :=
  match engine (deleteAllRowsSql table) with
  | ExecResult.ok =>
    { outcome := Outcome.returned, executed := [deleteAllRowsSql table], commits := 1,
      logs := ["deleted all rows from " ++ table], prompts := prompts }
  | _ =>
    { outcome := Outcome.raised PyError.engineError,
      executed := [deleteAllRowsSql table], commits := 0, logs := [], prompts := prompts }

/-- `Database.delete_all_rows(table)`: when `root` is false, prompt and
treat any input whose `lower()` is not `y` as refusal (print the aborted
notice and return, touching nothing); otherwise, or on confirmation,
delete all rows and commit. -/
def delete_all_rows (engine : String → ExecResult) (root : Bool)
    (userInput : String) (table : String) : OpResult :=
  if !root then
    if toLowerStr userInput == "y" then runDeleteAllRows engine table 1
    else
      { outcome := Outcome.returned, executed := [], commits := 0,
        logs := ["delete aborted."], prompts := 1 }
  else runDeleteAllRows engine table 0

/-- The introspection query of `clear_all_tables` (built here because its
literal contains single quotes). -/
def fetchTablesSql : String :=
  "SELECT name FROM sqlite_master WHERE type =" ++ sqStr ++ "table" ++ sqStr ++ ";"

/-- The per-table deletion loop of `clear_all_tables`: one unguarded
DELETE plus commit per table; an engine error stops the loop and
propagates.  Returns the executed statements, the commit count, and the
error if one occurred. -/
def deleteTables (engine : String → ExecResult) :
    List String → List String × Nat × Option PyError
  | [] => ([], 0, none)
  | t :: ts =>
    match engine ("DELETE FROM " ++ t) with
    | ExecResult.ok =>
      let rest := deleteTables engine ts
      (("DELETE FROM " ++ t) :: rest.fst, rest.snd.fst + 1, rest.snd.snd)
    | _ => ([("DELETE FROM " ++ t)], 0, some PyError.engineError)

/-- The body of `clear_all_tables` after the confirmation guard: fetch
the table list from `sqlite_master` (modeled by the `tablesInDb`
parameter), then delete from each table in turn. -/
def clearTablesRun (engine : String → ExecResult) (tablesInDb : List String)
    (prompts : Nat) : OpResult :=
  let r := deleteTables engine tablesInDb
  { outcome :=
      match r.snd.snd with
      | none => Outcome.returned
      | some e => Outcome.raised e,
    executed := fetchTablesSql :: r.fst,
    commits := r.snd.fst,
    logs := ["deleted tables:"],
    prompts := prompts }

/-- `Database.clear_all_tables()`: same confirmation guard as
`delete_all_rows`, then clears every table with one independently
committed DELETE per table. -/
def clear_all_tables (engine : String → ExecResult) (tablesInDb : List String)
    (root : Bool) (userInput : String) : OpResult :=
  if !root then
    if toLowerStr userInput == "y" then clearTablesRun engine tablesInDb 1
    else
      { outcome := Outcome.returned, executed := [], commits := 0,
        logs := ["delete aborted."], prompts := 1 }
  else clearTablesRun engine tablesInDb 0

/-- C6: in root (unattended) mode both destructive operations proceed
with no prompt (the deletion statements are attempted); otherwise a
prompt is issued, and any input other than `y` (case-insensitive) is a
refusal that returns with no statement executed and nothing committed. -/
theorem delete_guard_spec (engine : String → ExecResult)
    (tablesInDb : List String) (table input : String) :
    (delete_all_rows engine true input table).prompts = 0
  ∧ (delete_all_rows engine true input table).executed = [deleteAllRowsSql table]
  ∧ (toLowerStr input ≠ "y" →
      delete_all_rows engine false input table =
        { outcome := Outcome.returned, executed := [], commits := 0,
          logs := ["delete aborted."], prompts := 1 })
  ∧ (clear_all_tables engine tablesInDb true input).prompts = 0
  ∧ (clear_all_tables engine tablesInDb true input).executed =
      fetchTablesSql :: (deleteTables engine tablesInDb).fst
  ∧ (toLowerStr input ≠ "y" →
      clear_all_tables engine tablesInDb false input =
        { outcome := Outcome.returned, executed := [], commits := 0,
          logs := ["delete aborted."], prompts := 1 }) := by
  refine ⟨?_, ?_, ?_, ?_, ?_, ?_⟩
  · show (runDeleteAllRows engine table 0).prompts = 0
    unfold runDeleteAllRows
    cases engine (deleteAllRowsSql table) <;> rfl
  · show (runDeleteAllRows engine table 0).executed = _
    unfold runDeleteAllRows
    cases engine (deleteAllRowsSql table) <;> rfl
  · intro h
    have hb : (toLowerStr input == "y") = false := beq_eq_false_iff_ne.mpr h
    simp [delete_all_rows, hb]
  · rfl
  · rfl
  · intro h
    have hb : (toLowerStr input == "y") = false := beq_eq_false_iff_ne.mpr h
    simp [clear_all_tables, hb]

/-- C6 witness: with the refusing input `N`, both operations abort
untouched; in root mode the deletion runs with no prompt. -/
theorem delete_guard_spec_witness :
    delete_all_rows (fun _ => ExecResult.ok) false "N" "t" =
      { outcome := Outcome.returned, executed := [], commits := 0,
        logs := ["delete aborted."], prompts := 1 }
  ∧ clear_all_tables (fun _ => ExecResult.ok) ["t1", "t2"] false "N" =
      { outcome := Outcome.returned, executed := [], commits := 0,
        logs := ["delete aborted."], prompts := 1 }
  ∧ (delete_all_rows (fun _ => ExecResult.ok) true "irrelevant" "t").prompts = 0 :=
  ⟨(delete_guard_spec (fun _ => ExecResult.ok) ["t1", "t2"] "t" "N").2.2.1
      (by decide),
   (delete_guard_spec (fun _ => ExecResult.ok) ["t1", "t2"] "t" "N").2.2.2.2.2
      (by decide),
   (delete_guard_spec (fun _ => ExecResult.ok) [] "t" "irrelevant").1⟩

/-- The introspection query of `Database.ensure_column`. -/
def pragmaSql (table : String) : String := "PRAGMA table_info(" ++ table ++ ");"

/-- The schema-changing statement of `Database.ensure_column`. -/
def alterSql (table column dataType : String) : String :=
  "ALTER TABLE " ++ table ++ " ADD " ++ column ++ " " ++ dataType ++ ";"

/-- `Database.ensure_column(table_name, column_name, data_type)`:
introspect the column names (the PRAGMA result is modeled by
`existingColumns`), compute `col_exists` as membership of the column
name, issue the unguarded ALTER only when absent (no commit in the
source), and return `col_exists`. -/
def ensure_column (engine : String → ExecResult) (existingColumns : List String)
    (table_name column_name data_type : String) : Bool × OpResult :=
  let col_exists := existingColumns.contains column_name
  if !col_exists then
    match engine (alterSql table_name column_name data_type) with
    | ExecResult.ok =>
      (col_exists,
       { outcome := Outcome.returned,
         executed := [pragmaSql table_name, alterSql table_name column_name data_type],
         commits := 0, logs := [], prompts := 0 })
    | _ =>
      (col_exists,
       { outcome := Outcome.raised PyError.engineError,
         executed := [pragmaSql table_name, alterSql table_name column_name data_type],
         commits := 0, logs := [], prompts := 0 })
  else
    (col_exists,
     { outcome := Outcome.returned, executed := [pragmaSql table_name],
       commits := 0, logs := [], prompts := 0 })

/-- C7: `ensure_column` returns true exactly when the column is in the
introspected column set; when present it executes only the introspection
query (no schema-changing statement); when absent it also issues the
`ALTER TABLE ... ADD` statement with the given declared type and returns
false. -/
theorem ensure_column_spec (engine : String → ExecResult)
    (cols : List String) (t c ty : String) :
    ((ensure_column engine cols t c ty).fst = true ↔ c ∈ cols)
  ∧ (c ∈ cols → (ensure_column engine cols t c ty).snd.executed = [pragmaSql t])
  ∧ (c ∉ cols →
      (ensure_column engine cols t c ty).fst = false
    ∧ (ensure_column engine cols t c ty).snd.executed = [pragmaSql t, alterSql t c ty]) := by
  by_cases hmem : c ∈ cols
  · exact ⟨by simp [ensure_column, hmem], fun _ => by simp [ensure_column, hmem],
      fun habs => absurd hmem habs⟩
  · refine ⟨?_, fun hmem2 => absurd hmem2 hmem, fun _ => ?_⟩
    · cases h : engine (alterSql t c ty) <;> simp [ensure_column, hmem, h]
    · cases h : engine (alterSql t c ty) <;> simp [ensure_column, hmem, h]

/-- C7 witness: on the column set containing only `a`, ensuring `a`
reports it existed and only introspects, while ensuring `b` reports it
did not exist and issues the ALTER statement. -/
theorem ensure_column_spec_witness :
    ((ensure_column (fun _ => ExecResult.ok) ["a"] "t" "a" "TEXT").fst = true)
  ∧ (ensure_column (fun _ => ExecResult.ok) ["a"] "t" "a" "TEXT").snd.executed =
      [pragmaSql "t"]
  ∧ (ensure_column (fun _ => ExecResult.ok) ["a"] "t" "b" "TEXT").fst = false
  ∧ (ensure_column (fun _ => ExecResult.ok) ["a"] "t" "b" "TEXT").snd.executed =
      [pragmaSql "t", alterSql "t" "b" "TEXT"] :=
  ⟨(ensure_column_spec (fun _ => ExecResult.ok) ["a"] "t" "a" "TEXT").1.mpr
      (by decide),
   (ensure_column_spec (fun _ => ExecResult.ok) ["a"] "t" "a" "TEXT").2.1
      (by decide),
   ((ensure_column_spec (fun _ => ExecResult.ok) ["a"] "t" "b" "TEXT").2.2
      (by decide)).1,
   ((ensure_column_spec (fun _ => ExecResult.ok) ["a"] "t" "b" "TEXT").2.2
      (by decide)).2⟩

end DB
